import Mathlib

/-!
Shallow embedding of `homework.py`: a fitness tracker computing distance,
mean speed and spent calories for three workout kinds (Running,
SportsWalking, Swimming), a summary formatter, and a factory dispatching
a workout-type code to the right variant.  Python float arithmetic is
modelled over `ℚ`; Python's float floor division `//` is modelled by
`Int.floor` of the true quotient; a Python `ZeroDivisionError` is
modelled by `Option`-returning variants of the metric operations built
on checked division.
-/

namespace Homework

/-- Constant `Training.LEN_STEP = 0.65` (step length, km per 1000 steps scale). -/
def LEN_STEP : ℚ := 65 / 100

/-- Constant `Swimming.LEN_STEP = 1.38` (per-stroke length). -/
def SWIM_LEN_STEP : ℚ := 138 / 100

/-- Constant `Training.M_IN_KM = 1000`. -/
def M_IN_KM : ℚ := 1000

/-- Constant `Training.MIN_IN_HOUR = 60`. -/
def MIN_IN_HOUR : ℚ := 60

/-- Checked division: Python `a / b` raises `ZeroDivisionError` when `b = 0`;
the raised exception is modelled by `none`. -/
def div? (a b : ℚ) : Option ℚ := if b = 0 then none else some (a / b)

/-- Checked float floor division: Python `a // b` returns `floor(a / b)` and
raises `ZeroDivisionError` when `b = 0`. -/
def floordiv? (a b : ℚ) : Option ℚ :=
  if b = 0 then none else some ((⌊a / b⌋ : ℤ) : ℚ)

/-- The workout record: the base dataclass `Training(action, duration, weight)`
with its two subclasses `SportsWalking` (adds `height`) and `Swimming`
(adds `length_pool`, `count_pool`). -/
inductive Training where
  | running (action duration weight : ℚ)
  | sportsWalking (action duration weight height : ℚ)
  | swimming (action duration weight length_pool count_pool : ℚ)
deriving DecidableEq, Repr

namespace Training

/-- Field `action` of the record. -/
def action : Training → ℚ
  | .running a _ _ => a
  | .sportsWalking a _ _ _ => a
  | .swimming a _ _ _ _ => a

/-- Field `duration` of the record. -/
def duration : Training → ℚ
  | .running _ d _ => d
  | .sportsWalking _ d _ _ => d
  | .swimming _ d _ _ _ => d

/-- Field `weight` of the record. -/
def weight : Training → ℚ
  | .running _ _ w => w
  | .sportsWalking _ _ w _ => w
  | .swimming _ _ w _ _ => w

/-- Expression `type(self).__name__`: the implementing class's name. -/
def className : Training → String
  | .running .. => "Running"
  | .sportsWalking .. => "SportsWalking"
  | .swimming .. => "Swimming"

/-- Method `get_distance`: `self.action * self.LEN_STEP / self.M_IN_KM`, where
`Swimming` overrides `LEN_STEP` with `1.38` (its override repeats the same
formula with its own constant). -/
def get_distance : Training → ℚ
  | .running a _ _ => a * LEN_STEP / M_IN_KM
  | .sportsWalking a _ _ _ => a * LEN_STEP / M_IN_KM
  | .swimming a _ _ _ _ => a * SWIM_LEN_STEP / M_IN_KM

/-- Method `get_mean_speed`: `self.get_distance() / self.duration` for Running and
SportsWalking; Swimming overrides it with
`(self.length_pool * self.count_pool / self.M_IN_KM) / self.duration`. -/
def get_mean_speed (t : Training) : ℚ :=
  match t with
  | .swimming _ d _ l c => (l * c / M_IN_KM) / d
  | _ => t.get_distance / t.duration

/-- Method `get_spent_calories`, per variant:
Running: `(18 * speed - 20) * weight / M_IN_KM * duration * MIN_IN_HOUR`;
SportsWalking: `(0.035 * weight + (speed ** 2 // height) * 0.029 * weight)
* duration * MIN_IN_HOUR` (Python float `//` = floor of the quotient);
Swimming: `(speed + 1.1) * 2 * weight`. -/
def get_spent_calories (t : Training) : ℚ :=
  match t with
  | .running _ d w =>
      (18 * t.get_mean_speed - 20) * w / M_IN_KM * d * MIN_IN_HOUR
  | .sportsWalking _ d w h =>
      ((35 / 1000) * w
        + ((⌊t.get_mean_speed ^ 2 / h⌋ : ℤ) : ℚ) * (29 / 1000) * w)
        * d * MIN_IN_HOUR
  | .swimming _ _ w _ _ =>
      (t.get_mean_speed + (11 / 10)) * 2 * w

/-- Method `get_distance` with every division checked: the only division is by the
constant `M_IN_KM = 1000`. -/
def get_distance? : Training → Option ℚ
  | .running a _ _ => div? (a * LEN_STEP) M_IN_KM
  | .sportsWalking a _ _ _ => div? (a * LEN_STEP) M_IN_KM
  | .swimming a _ _ _ _ => div? (a * SWIM_LEN_STEP) M_IN_KM

/-- Method `get_mean_speed` with every division checked: the generic version divides
the distance by `duration`; Swimming divides `length_pool * count_pool` by
`M_IN_KM` and then by `duration`. -/
def get_mean_speed? (t : Training) : Option ℚ :=
  match t with
  | .swimming _ d _ l c => do
      let x ← div? (l * c) M_IN_KM
      div? x d
  | _ => do
      let dist ← t.get_distance?
      div? dist t.duration

/-- Method `get_spent_calories` with every division checked: Running divides by
`M_IN_KM`; SportsWalking floor-divides the squared speed by `height`;
Swimming performs no division of its own beyond `get_mean_speed`. -/
def get_spent_calories? (t : Training) : Option ℚ :=
  match t with
  | .running _ d w => do
      let sp ← t.get_mean_speed?
      let x ← div? ((18 * sp - 20) * w) M_IN_KM
      pure (x * d * MIN_IN_HOUR)
  | .sportsWalking _ d w h => do
      let sp ← t.get_mean_speed?
      let q ← floordiv? (sp ^ 2) h
      pure (((35 / 1000) * w + q * (29 / 1000) * w) * d * MIN_IN_HOUR)
  | .swimming _ _ w _ _ => do
      let sp ← t.get_mean_speed?
      pure ((sp + (11 / 10)) * 2 * w)

/-- A Python method call modelled with explicit state passing: the call
returns its value together with the post-state of the receiver.  The body of
`get_distance` contains no assignment to `self`, so the post-state is the
receiver unchanged. -/
def get_distanceS (t : Training) : ℚ × Training := (t.get_distance, t)

/-- Method `get_mean_speed` with explicit state passing; its body contains no
assignment to `self`. -/
def get_mean_speedS (t : Training) : ℚ × Training := (t.get_mean_speed, t)

/-- Method `get_spent_calories` with explicit state passing; its body contains no
assignment to `self`. -/
def get_spent_caloriesS (t : Training) : ℚ × Training := (t.get_spent_calories, t)

end Training

/-- The dataclass `InfoMessage(training_type, duration, distance, speed,
calories)`. -/
structure InfoMessage where
  training_type : String
  duration : ℚ
  distance : ℚ
  speed : ℚ
  calories : ℚ
deriving DecidableEq, Repr

/-- The three decimal digits of Python's fixed-point `{x:.3f}` rendering of
`|q|`: the value is scaled by 1000 and rounded to the nearest integer
(half up on the magnitude), then split into digits. -/
def frac3 (q : ℚ) : List Char :=
  let n : ℕ := (⌊|q| * 1000 + 1 / 2⌋).toNat
  [Nat.digitChar (n / 100 % 10), Nat.digitChar (n / 10 % 10), Nat.digitChar (n % 10)]

/-- Python's `{x:.3f}` fixed-point formatting: an optional sign, the integer
part in decimal, a decimal point, and exactly three fractional digits. -/
def format3 (q : ℚ) : String :=
  (if q < 0 then "-" else "")
    ++ Nat.repr ((⌊|q| * 1000 + 1 / 2⌋).toNat / 1000)
    ++ "." ++ String.mk (frac3 q)

/-- Method `InfoMessage.get_message`: `MESSAGE.format(**asdict(self))`, the class
template with each float field rendered by `{...:.3f}`. -/
def InfoMessage.get_message (m : InfoMessage) : String :=
  "Тип тренировки: " ++ m.training_type
    ++ "; Длительность: " ++ format3 m.duration
    ++ " ч.; Дистанция: " ++ format3 m.distance
    ++ " км; Ср. скорость: " ++ format3 m.speed
    ++ " км/ч; Потрачено ккал: " ++ format3 m.calories ++ "."

/-- Method `Training.show_training_info`: builds
`InfoMessage(type(self).__name__, self.duration, self.get_distance(),
self.get_mean_speed(), self.get_spent_calories())`. -/
def Training.show_training_info (t : Training) : InfoMessage :=
  { training_type := t.className
    duration := t.duration
    distance := t.get_distance
    speed := t.get_mean_speed
    calories := t.get_spent_calories }

/-- Errors of `read_package`: the `KeyError` on an unknown dict key is caught
and re-raised as `ValueError('Такой тренировки не существует')`; calling a
constructor with the wrong number of positional values raises an uncaught
`TypeError` (an arity mismatch). -/
inductive ReadError where
  | unknownWorkoutType (msg : String)
  | arityMismatch
deriving DecidableEq, Repr

/-- Function `read_package(workout_type, data)`: looks `workout_type` up in
`{"RUN": Running, "SWM": Swimming, "WLK": SportsWalking}` and applies the
found class to the data values positionally; an unknown key becomes
`ValueError('Такой тренировки не существует')`. -/
def read_package (workout_type : String) (data : List ℚ) :
    Except ReadError Training :=
  match workout_type with
  | "RUN" =>
      match data with
      | [a, d, w] => .ok (.running a d w)
      | _ => .error .arityMismatch
  | "SWM" =>
      match data with
      | [a, d, w, l, c] => .ok (.swimming a d w l c)
      | _ => .error .arityMismatch
  | "WLK" =>
      match data with
      | [a, d, w, h] => .ok (.sportsWalking a d w h)
      | _ => .error .arityMismatch
  | _ => .error (.unknownWorkoutType "Такой тренировки не существует")

end Homework

namespace Homework

/-- C1: For every Walking workout, `get_spent_calories` returns
`(0.035 * weight + floor_divide(speed^2, height) * 0.029 * weight)
* duration * 60`, using floor division (not ordinary division) of the
squared mean speed by the height; in particular for `action = 9000`,
`duration = 1`, `weight = 75`, `height = 180` it returns `157.5`
(ordinary division would give a different value there). -/
theorem spec_c1_walking_calories :
    (∀ a d w h : ℚ, (Training.sportsWalking a d w h).get_spent_calories
      = ((35 / 1000) * w
          + ((⌊(Training.sportsWalking a d w h).get_mean_speed ^ 2 / h⌋ : ℤ) : ℚ)
            * (29 / 1000) * w) * d * 60)
    ∧ (Training.sportsWalking 9000 1 75 180).get_spent_calories = 315 / 2
    ∧ ((35 / 1000 : ℚ) * 75 + ((117 / 20 : ℚ) ^ 2 / 180) * (29 / 1000) * 75)
        * 1 * 60 ≠ 315 / 2 := by
  refine ⟨fun a d w h => ?_, ?_, ?_⟩
  · simp [Training.get_spent_calories, MIN_IN_HOUR]
  · norm_num [Training.get_spent_calories, Training.get_mean_speed,
      Training.get_distance, Training.duration, LEN_STEP, M_IN_KM, MIN_IN_HOUR]
  · norm_num

/-- C2: For every Swimming workout, `get_mean_speed` returns
`(length_pool * count_pool / 1000) / duration`, which does not depend on
`action` (so the action-based `get_distance` plays no role); in particular
for `duration = 1`, `length_pool = 25`, `count_pool = 40` it returns `1`. -/
theorem spec_c2_swimming_speed :
    (∀ a d w l c : ℚ, (Training.swimming a d w l c).get_mean_speed
      = (l * c / 1000) / d)
    ∧ (∀ a a' d w l c : ℚ, (Training.swimming a d w l c).get_mean_speed
      = (Training.swimming a' d w l c).get_mean_speed)
    ∧ (Training.swimming 720 1 80 25 40).get_mean_speed = 1 := by
  refine ⟨fun a d w l c => ?_, fun a a' d w l c => ?_, ?_⟩
  · simp [Training.get_mean_speed, M_IN_KM]
  · simp [Training.get_mean_speed]
  · norm_num [Training.get_mean_speed, M_IN_KM]

/-- C3 counterexample: for `action = 15000`, `duration = 1`, `weight = 75`
the Running calorie computation returns `699.75 = 2799/4`, not `722.25 =
72225/100` as the claim's concrete value asserts. -/
theorem spec_c3_counterexample :
    (Training.running 15000 1 75).get_spent_calories = 2799 / 4
    ∧ (Training.running 15000 1 75).get_spent_calories ≠ 72225 / 100 := by
  have h : (Training.running 15000 1 75).get_spent_calories = 2799 / 4 := by
    norm_num [Training.get_spent_calories, Training.get_mean_speed,
      Training.get_distance, Training.duration, LEN_STEP, M_IN_KM, MIN_IN_HOUR]
  exact ⟨h, by rw [h]; norm_num⟩

/-- C3 amended: For every Running workout, `get_spent_calories` returns
`(18 * mean_speed - 20) * weight / 1000 * duration * 60`; in particular for
`action = 15000`, `duration = 1`, `weight = 75` it returns
`(18 * 9.75 - 20) * 75 / 1000 * 60 = 699.75`. -/
theorem spec_c3_running_calories :
    (∀ a d w : ℚ, (Training.running a d w).get_spent_calories
      = (18 * (Training.running a d w).get_mean_speed - 20) * w / 1000 * d * 60)
    ∧ (Training.running 15000 1 75).get_spent_calories
        = (18 * (39 / 4) - 20) * 75 / 1000 * 60
    ∧ (Training.running 15000 1 75).get_spent_calories = 2799 / 4 := by
  refine ⟨fun a d w => ?_, ?_, ?_⟩
  · simp [Training.get_spent_calories, M_IN_KM, MIN_IN_HOUR]
  all_goals
    norm_num [Training.get_spent_calories, Training.get_mean_speed,
      Training.get_distance, Training.duration, LEN_STEP, M_IN_KM, MIN_IN_HOUR]

/-- C8: For every Swimming workout, `get_spent_calories` returns
`(mean_speed + 1.1) * 2 * weight`; in particular for `duration = 1`,
`weight = 80`, `length_pool = 25`, `count_pool = 40` it returns `336`. -/
theorem spec_c8_swimming_calories :
    (∀ a d w l c : ℚ, (Training.swimming a d w l c).get_spent_calories
      = ((Training.swimming a d w l c).get_mean_speed + 11 / 10) * 2 * w)
    ∧ (Training.swimming 720 1 80 25 40).get_spent_calories = 336 := by
  refine ⟨fun a d w l c => ?_, ?_⟩
  · simp [Training.get_spent_calories]
  · norm_num [Training.get_spent_calories, Training.get_mean_speed, M_IN_KM]

/-- C4: For every workout-type code outside {"RUN", "SWM", "WLK"},
`read_package` fails with the unknown-workout-type error carrying the
human-readable message, constructing no workout; each of the three
recognized codes constructs the corresponding variant from the raw values
bound positionally. -/
theorem spec_c4_read_package (code : String)
    (hn : code ≠ "RUN" ∧ code ≠ "SWM" ∧ code ≠ "WLK") :
    (∀ data, read_package code data
      = .error (.unknownWorkoutType "Такой тренировки не существует"))
    ∧ (∀ a d w : ℚ, read_package "RUN" [a, d, w] = .ok (.running a d w))
    ∧ (∀ a d w l c : ℚ, read_package "SWM" [a, d, w, l, c]
        = .ok (.swimming a d w l c))
    ∧ (∀ a d w h : ℚ, read_package "WLK" [a, d, w, h]
        = .ok (.sportsWalking a d w h)) := by
  refine ⟨fun data => ?_, fun a d w => rfl, fun a d w l c => rfl,
    fun a d w h => rfl⟩
  obtain ⟨h1, h2, h3⟩ := hn
  unfold read_package
  split <;> simp_all

/-- Witness for C4 at code "XYZ". -/
theorem spec_c4_read_package_witness :
    read_package "XYZ" [1, 2, 3]
      = .error (.unknownWorkoutType "Такой тренировки не существует")
    ∧ read_package "WLK" [9000, 1, 75, 180]
      = .ok (.sportsWalking 9000 1 75 180) :=
  ⟨(spec_c4_read_package "XYZ"
      ⟨by decide, by decide, by decide⟩).1 [1, 2, 3],
   (spec_c4_read_package "XYZ"
      ⟨by decide, by decide, by decide⟩).2.2.2 9000 1 75 180⟩

/-- C6 counterexample: the Swimming record with `action = 720`,
`duration = 1`, `weight = 80`, `length_pool = -25`, `count_pool = 40` has
positive duration and positive action yet a negative mean speed, so the
claim as stated is false. -/
theorem spec_c6_counterexample :
    0 < (Training.swimming 720 1 80 (-25) 40).duration
    ∧ 0 < (Training.swimming 720 1 80 (-25) 40).action
    ∧ (Training.swimming 720 1 80 (-25) 40).get_mean_speed < 0 := by
  refine ⟨by norm_num [Training.duration], by norm_num [Training.action], ?_⟩
  norm_num [Training.get_mean_speed, M_IN_KM]

/-- Trivially true except for Swimming, where it requires the two pool-geometry
fields to be non-negative. -/
def Training.poolFieldsNonneg : Training → Prop
  | .swimming _ _ _ l c => 0 ≤ l ∧ 0 ≤ c
  | _ => True

/-- C6 amended: For every workout record with positive `duration` and
positive `action` — and, for Swimming, non-negative `length_pool` and
`count_pool` — `get_distance` and `get_mean_speed` are non-negative. -/
theorem spec_c6_nonneg (t : Training) (hd : 0 < t.duration)
    (ha : 0 < t.action) (hp : t.poolFieldsNonneg) :
    0 ≤ t.get_distance ∧ 0 ≤ t.get_mean_speed := by
  cases t with
  | running a d w =>
      simp only [Training.duration] at hd
      simp only [Training.action] at ha
      have hdist : (0 : ℚ) ≤ a * LEN_STEP / M_IN_KM :=
        div_nonneg (mul_nonneg ha.le (by norm_num [LEN_STEP]))
          (by norm_num [M_IN_KM])
      exact ⟨hdist, div_nonneg hdist hd.le⟩
  | sportsWalking a d w h =>
      simp only [Training.duration] at hd
      simp only [Training.action] at ha
      have hdist : (0 : ℚ) ≤ a * LEN_STEP / M_IN_KM :=
        div_nonneg (mul_nonneg ha.le (by norm_num [LEN_STEP]))
          (by norm_num [M_IN_KM])
      exact ⟨hdist, div_nonneg hdist hd.le⟩
  | swimming a d w l c =>
      simp only [Training.duration] at hd
      simp only [Training.action] at ha
      obtain ⟨hl, hc⟩ := hp
      have hdist : (0 : ℚ) ≤ a * SWIM_LEN_STEP / M_IN_KM :=
        div_nonneg (mul_nonneg ha.le (by norm_num [SWIM_LEN_STEP]))
          (by norm_num [M_IN_KM])
      refine ⟨hdist, ?_⟩
      simp only [Training.get_mean_speed]
      exact div_nonneg (div_nonneg (mul_nonneg hl hc)
        (by norm_num [M_IN_KM])) hd.le

/-- Witness for the amended C6 at the Running record (15000, 1, 75). -/
theorem spec_c6_nonneg_witness :
    0 ≤ (Training.running 15000 1 75).get_distance
    ∧ 0 ≤ (Training.running 15000 1 75).get_mean_speed :=
  spec_c6_nonneg (Training.running 15000 1 75)
    (by norm_num [Training.duration]) (by norm_num [Training.action])
    (by simp [Training.poolFieldsNonneg])

/-- C9: Modelling each metric method with explicit state passing (value
and post-state of the receiver), calling any of the three operations twice
on the same record yields the same value both times, and the record is
unchanged by each call. -/
theorem spec_c9_purity (t : Training) :
    (t.get_distanceS.2 = t
      ∧ t.get_distanceS.2.get_distanceS.1 = t.get_distanceS.1)
    ∧ (t.get_mean_speedS.2 = t
      ∧ t.get_mean_speedS.2.get_mean_speedS.1 = t.get_mean_speedS.1)
    ∧ (t.get_spent_caloriesS.2 = t
      ∧ t.get_spent_caloriesS.2.get_spent_caloriesS.1
          = t.get_spent_caloriesS.1) :=
  ⟨⟨rfl, rfl⟩, ⟨rfl, rfl⟩, ⟨rfl, rfl⟩⟩

/-- C5: For every kind label and four metric values, `get_message` produces
exactly the fixed template with each float rendered by the fixed-point
3-decimal formatter; the formatter always emits a decimal point followed by
exactly three digits, regardless of magnitude (9.75 renders as "9.750");
being a plain function, it has no side effects. -/
theorem spec_c5_message_template :
    (∀ m : InfoMessage, m.get_message
      = "Тип тренировки: " ++ m.training_type
        ++ "; Длительность: " ++ format3 m.duration
        ++ " ч.; Дистанция: " ++ format3 m.distance
        ++ " км; Ср. скорость: " ++ format3 m.speed
        ++ " км/ч; Потрачено ккал: " ++ format3 m.calories ++ ".")
    ∧ (∀ q : ℚ, ∃ intPart : String,
        format3 q = intPart ++ "." ++ String.mk (frac3 q)
        ∧ (frac3 q).length = 3)
    ∧ format3 (39 / 4) = "9.750" := by
  refine ⟨fun m => rfl, fun q => ?_, ?_⟩
  · exact ⟨(if q < 0 then "-" else "")
      ++ Nat.repr ((⌊|q| * 1000 + 1 / 2⌋).toNat / 1000),
      by rw [format3], by simp [frac3]⟩
  · have h : |(39 / 4 : ℚ)| = 39 / 4 := abs_of_nonneg (by norm_num)
    have h2 : (⌊(39 / 4 : ℚ) * 1000 + 1 / 2⌋ : ℤ) = 9750 := by norm_num
    simp only [format3, frac3, h, h2]
    norm_num
    rfl

/-- C7: With every division of the source made explicit and checked, the
three metric operations succeed (and agree with the unchecked model)
whenever `duration` is nonzero and, for Walking, `height` is nonzero;
when `duration = 0` the mean-speed computation divides by zero, and for a
Walking record with `height = 0` the calorie computation divides by zero —
no operation guards against either. -/
theorem spec_c7_division_safety :
    (∀ t : Training, t.duration ≠ 0
      → (∀ a d w h : ℚ, t = .sportsWalking a d w h → h ≠ 0)
      → t.get_distance? = some t.get_distance
        ∧ t.get_mean_speed? = some t.get_mean_speed
        ∧ t.get_spent_calories? = some t.get_spent_calories)
    ∧ (∀ t : Training, t.duration = 0 → t.get_mean_speed? = none)
    ∧ (∀ a d w : ℚ,
        (Training.sportsWalking a d w 0).get_spent_calories? = none) := by
  refine ⟨fun t hd hh => ?_, fun t hd => ?_, fun a d w => ?_⟩
  · cases t with
    | running a d w =>
        simp only [Training.duration] at hd
        simp [Training.get_distance?, Training.get_mean_speed?,
          Training.get_spent_calories?, Training.get_distance,
          Training.get_mean_speed, Training.get_spent_calories,
          Training.duration, div?, M_IN_KM, hd]
    | sportsWalking a d w h =>
        simp only [Training.duration] at hd
        have hh' : h ≠ 0 := hh a d w h rfl
        simp [Training.get_distance?, Training.get_mean_speed?,
          Training.get_spent_calories?, Training.get_distance,
          Training.get_mean_speed, Training.get_spent_calories,
          Training.duration, div?, floordiv?, M_IN_KM, hd, hh']
    | swimming a d w l c =>
        simp only [Training.duration] at hd
        simp [Training.get_distance?, Training.get_mean_speed?,
          Training.get_spent_calories?, Training.get_distance,
          Training.get_mean_speed, Training.get_spent_calories,
          Training.duration, div?, M_IN_KM, hd]
  · cases t <;>
      simp_all [Training.get_mean_speed?, Training.get_distance?,
        Training.duration, div?, M_IN_KM]
  · by_cases hd : d = 0 <;>
      simp [Training.get_spent_calories?, Training.get_mean_speed?,
        Training.get_distance?, Training.duration, div?, floordiv?,
        M_IN_KM, hd]

/-- Witness for C7: the checked Swimming calories at (720, 1, 80, 25, 40)
succeed with value 336; zero duration makes the checked mean speed fail;
zero height makes the checked Walking calories fail. -/
theorem spec_c7_division_safety_witness :
    (Training.swimming 720 1 80 25 40).get_spent_calories? = some 336
    ∧ (Training.running 15000 0 75).get_mean_speed? = none
    ∧ (Training.sportsWalking 9000 1 75 0).get_spent_calories? = none := by
  refine ⟨?_, ?_, ?_⟩
  · have h := (spec_c7_division_safety.1 (Training.swimming 720 1 80 25 40)
      (by norm_num [Training.duration])
      (fun a d w hh h' => by cases h')).2.2
    rw [h]
    norm_num [Training.get_spent_calories, Training.get_mean_speed, M_IN_KM]
  · exact spec_c7_division_safety.2.1 (Training.running 15000 0 75)
      (by norm_num [Training.duration])
  · exact spec_c7_division_safety.2.2 9000 1 75

/-- The message template decomposed with all appends to the right of the
kind label made explicit: the label placed after "Тип тренировки: " is the
`training_type` field. -/
theorem get_message_head (m : InfoMessage) :
    m.get_message = "Тип тренировки: "
      ++ (m.training_type ++ ("; Длительность: " ++ (format3 m.duration
      ++ (" ч.; Дистанция: " ++ (format3 m.distance
      ++ (" км; Ср. скорость: " ++ (format3 m.speed
      ++ (" км/ч; Потрачено ккал: " ++ (format3 m.calories ++ "."))))))))) := by
  simp [InfoMessage.get_message, String.append_assoc]

/-- Inversion of the factory for code "WLK": a successful construction
consumed exactly four values and built the `sportsWalking` variant. -/
theorem read_package_wlk_ok (data : List ℚ) (t : Training)
    (ho : read_package "WLK" data = .ok t) :
    ∃ a d w h, data = [a, d, w, h] ∧ t = .sportsWalking a d w h := by
  rcases data with _ | ⟨a, _ | ⟨d, _ | ⟨w, _ | ⟨h, _ | ⟨e, rest⟩⟩⟩⟩⟩ <;>
    simp only [read_package] at ho
  · exact absurd ho (by simp)
  · exact absurd ho (by simp)
  · exact absurd ho (by simp)
  · exact absurd ho (by simp)
  · exact ⟨a, d, w, h, rfl, by injection ho with ho'; exact ho'.symm⟩
  · exact absurd ho (by simp)

/-- Inversion of the factory for code "RUN". -/
theorem read_package_run_ok (data : List ℚ) (t : Training)
    (ho : read_package "RUN" data = .ok t) :
    ∃ a d w, data = [a, d, w] ∧ t = .running a d w := by
  rcases data with _ | ⟨a, _ | ⟨d, _ | ⟨w, _ | ⟨h, rest⟩⟩⟩⟩ <;>
    simp only [read_package] at ho
  · exact absurd ho (by simp)
  · exact absurd ho (by simp)
  · exact absurd ho (by simp)
  · exact ⟨a, d, w, rfl, by injection ho with ho'; exact ho'.symm⟩
  · exact absurd ho (by simp)

/-- Inversion of the factory for code "SWM". -/
theorem read_package_swm_ok (data : List ℚ) (t : Training)
    (ho : read_package "SWM" data = .ok t) :
    ∃ a d w l c, data = [a, d, w, l, c] ∧ t = .swimming a d w l c := by
  rcases data with _ | ⟨a, _ | ⟨d, _ | ⟨w, _ | ⟨l, _ | ⟨c, _ | ⟨e, rest⟩⟩⟩⟩⟩⟩ <;>
    simp only [read_package] at ho
  · exact absurd ho (by simp)
  · exact absurd ho (by simp)
  · exact absurd ho (by simp)
  · exact absurd ho (by simp)
  · exact absurd ho (by simp)
  · exact ⟨a, d, w, l, c, rfl, by injection ho with ho'; exact ho'.symm⟩
  · exact absurd ho (by simp)

/-- C10: For every workout constructed by the factory, the kind label put
into the summary is the implementing class's name — "Running",
"SportsWalking" or "Swimming" — not the dispatch code; in particular any
workout built from code "WLK" yields a summary line beginning
"Тип тренировки: SportsWalking". -/
theorem spec_c10_class_name_label :
    (∀ data t, read_package "WLK" data = .ok t
      → t.show_training_info.training_type = "SportsWalking"
        ∧ ∃ rest, t.show_training_info.get_message
            = "Тип тренировки: SportsWalking" ++ rest)
    ∧ (∀ data t, read_package "RUN" data = .ok t
        → t.show_training_info.training_type = "Running")
    ∧ (∀ data t, read_package "SWM" data = .ok t
        → t.show_training_info.training_type = "Swimming") := by
  refine ⟨fun data t h => ?_, fun data t h => ?_, fun data t h => ?_⟩
  · obtain ⟨a, d, w, hh, -, rfl⟩ := read_package_wlk_ok data t h
    refine ⟨rfl, ?_⟩
    rw [get_message_head, ← String.append_assoc]
    exact ⟨_, rfl⟩
  · obtain ⟨a, d, w, -, rfl⟩ := read_package_run_ok data t h
    rfl
  · obtain ⟨a, d, w, l, c, -, rfl⟩ := read_package_swm_ok data t h
    rfl

/-- Witness for C10 at the driver's own "WLK" package (9000, 1, 75, 180). -/
theorem spec_c10_class_name_label_witness :
    (Training.sportsWalking 9000 1 75 180).show_training_info.training_type
      = "SportsWalking"
    ∧ ∃ rest,
        (Training.sportsWalking 9000 1 75 180).show_training_info.get_message
          = "Тип тренировки: SportsWalking" ++ rest :=
  spec_c10_class_name_label.1 [9000, 1, 75, 180]
    (Training.sportsWalking 9000 1 75 180) rfl

end Homework
